import Mathlib

/-!
Verification of the Cinematic 3D Animator repository.

The development shallowly embeds the repository's core logic:
* the zustand settings store in `src/components/Animator.tsx` (initial
  table, `setValue`, `reset`);
* the per-frame motion computation of the `Scene` component's `useFrame`
  callback in the ParallaxStudio source file (camera sway/lift/zoom, mesh
  roll/wave, displacement scale, exposure, orbiting lights);
* the phase accumulator and its `playSignal`-driven reset (`useEffect` on
  `playSignal` plus the `timeRef.current += delta` frame step);
* the capture pipeline of `Animator.tsx` (`handleRecord`, `stopRecording`,
  the auto-stop timeout, the `onstop` handler, and `handleFileChange`).

Real-number arithmetic stands in for JavaScript floating point; `Math.sin`,
`Math.cos`, `Math.PI` become `Real.sin`, `Real.cos`, `Real.pi`.  The
JavaScript remainder `a % b` is embedded as floor-based `jsMod`, which
agrees with JavaScript's truncating remainder on the nonnegative dividends
and positive divisors that occur here.

The file is organised as definitions first (the embedding), then the
theorems settling the specification's claims.
-/

namespace Animator

/-! ## Animation settings (the zustand store in `Animator.tsx`) -/

/-- The `AnimationSettings` record (`src/components/Animator.tsx`): the
eight animation knobs. -/
structure AnimationSettings where
  duration : ℝ
  depth : ℝ
  sway : ℝ
  zoom : ℝ
  roll : ℝ
  wave : ℝ
  exposure : ℝ
  vignette : ℝ

/-- The literal settings record the store is created with
(`useAnimatorStore`, lines 22–31 of `Animator.tsx`). -/
def initialSettings : AnimationSettings :=
  { duration := 8
    depth := 0.35
    sway := 0.6
    zoom := 0.12
    roll := 0.08
    wave := 0.15
    exposure := 1.05
    vignette := 0.25 }

/-- The literal settings record written by `reset`
(lines 40–51 of `Animator.tsx`); a second copy of the defaults table in
the source, kept separate here so that its agreement with
`initialSettings` is a provable fact rather than an assumption. -/
def resetTable : AnimationSettings :=
  { duration := 8
    depth := 0.35
    sway := 0.6
    zoom := 0.12
    roll := 0.08
    wave := 0.15
    exposure := 1.05
    vignette := 0.25 }

/-- The keys of `AnimationSettings`, i.e. the `K extends keyof
AnimationSettings` type parameter of `setValue`. -/
inductive SettingKey where
  | duration | depth | sway | zoom | roll | wave | exposure | vignette
  deriving DecidableEq

/-- Field lookup, the read side of the store (`settings.<key>`). -/
def getValue (k : SettingKey) (s : AnimationSettings) : ℝ :=
  match k with
  | .duration => s.duration
  | .depth => s.depth
  | .sway => s.sway
  | .zoom => s.zoom
  | .roll => s.roll
  | .wave => s.wave
  | .exposure => s.exposure
  | .vignette => s.vignette

/-- `setValue(key, value)` (lines 32–38 of `Animator.tsx`): the spread
`{...state.settings, [key]: value}` overwrites exactly the field `key`. -/
def setValue (k : SettingKey) (v : ℝ) (s : AnimationSettings) : AnimationSettings :=
  match k with
  | .duration => { s with duration := v }
  | .depth => { s with depth := v }
  | .sway => { s with sway := v }
  | .zoom => { s with zoom := v }
  | .roll => { s with roll := v }
  | .wave => { s with wave := v }
  | .exposure => { s with exposure := v }
  | .vignette => { s with vignette := v }

/-- `reset()` (lines 39–51 of `Animator.tsx`): a single `set` replacing the
whole settings record with `resetTable`, independent of the current
state. -/
def storeReset (_ : AnimationSettings) : AnimationSettings := resetTable

/-- A sequence of prior `setValue` mutations, applied in order. -/
def applyOps (ops : List (SettingKey × ℝ)) (s : AnimationSettings) : AnimationSettings :=
  ops.foldl (fun acc kv => setValue kv.1 kv.2 acc) s

/-! ## The motion cycle engine (`Scene`'s `useFrame` callback) -/

/-- JavaScript's `a % b`, embedded with a floor: `a - b * ⌊a / b⌋`.  For
`a ≥ 0` and `b > 0` — the only combination arising in the frame loop,
where `a` is the accumulated elapsed time and `b` the clamped duration —
this coincides with JavaScript's truncating remainder. -/
noncomputable def jsMod (a b : ℝ) : ℝ := a - b * ⌊a / b⌋

/-- `const duration = Math.max(0.1, settings.duration)` (line 101). -/
def durationOf (s : AnimationSettings) : ℝ := max 0.1 s.duration

/-- `const normalized = (timeRef.current % duration) / duration`
(line 102), with `elapsed` standing for `timeRef.current`. -/
noncomputable def normalizedOf (elapsed : ℝ) (s : AnimationSettings) : ℝ :=
  jsMod elapsed (durationOf s) / durationOf s

/-- `const cycle = normalized * Math.PI * 2` (line 103). -/
noncomputable def cycleOf (elapsed : ℝ) (s : AnimationSettings) : ℝ :=
  normalizedOf elapsed s * Real.pi * 2

/-- The transforms the `useFrame` callback writes each frame: camera
position and look-at target, mesh z-rotation and z-position, the
material's displacement scale, the renderer's tone-mapping exposure, and
the position of each light-rig child as a function of its index. -/
structure FrameTransforms where
  cameraX : ℝ
  cameraY : ℝ
  cameraZ : ℝ
  lookTarget : ℝ × ℝ × ℝ
  meshRotZ : ℝ
  meshPosZ : ℝ
  displacementScale : ℝ
  exposure : ℝ
  lightPos : ℕ → ℝ × ℝ × ℝ

/-- The body of the `useFrame` callback (lines 105–132) as a function of
the already-computed `cycle`: the five oscillators `sway`, `lift`, `zoom`,
`roll`, `wave` and the assignments to camera, exposure, mesh and the
light-rig children (`const t = cycle + index * 2`). -/
noncomputable def frameOfCycle (cycle : ℝ) (s : AnimationSettings) : FrameTransforms :=
  let sway := Real.sin cycle * s.sway
  let lift := Real.cos (cycle * 0.8) * s.sway * 0.6
  let zoom := Real.sin (cycle * 0.5) * s.zoom
  let roll := Real.sin (cycle * 0.5) * s.roll
  let wave := Real.sin (cycle * 1.4) * s.wave
  { cameraX := sway * 0.8
    cameraY := lift * 0.4
    cameraZ := 3.1 + zoom * 3.2
    lookTarget := (0, 0, 0)
    meshRotZ := roll
    meshPosZ := wave * 0.45
    displacementScale := s.depth * 0.75
    exposure := s.exposure
    lightPos := fun index =>
      let t := cycle + index * 2
      (Real.sin (t * 0.35) * 4, Real.cos (t * 0.22) * 3 + 1.5, Real.sin (t * 0.18) * 5 + 4) }

/-- The whole per-frame transform computation (`useFrame` callback, lines
99–133) at elapsed time `elapsed` with settings `s`. -/
noncomputable def computeFrame (elapsed : ℝ) (s : AnimationSettings) : FrameTransforms :=
  frameOfCycle (cycleOf elapsed s) s

/-- The cycle value the spec's words prescribe, with the *unclamped*
duration: `cycle = ((elapsed mod duration) / duration) · 2π` where
`duration = settings.duration`.  Stated from the spec for comparison with
the code's `cycleOf`, which clamps the duration to at least `0.1`. -/
noncomputable def specCycle (elapsed : ℝ) (s : AnimationSettings) : ℝ :=
  jsMod elapsed s.duration / s.duration * (2 * Real.pi)

/-- The spec's cycle with the duration clamp the code applies:
`cycle = ((elapsed mod duration') / duration') · 2π` with
`duration' = max 0.1 settings.duration`. -/
noncomputable def specCycleClamped (elapsed : ℝ) (s : AnimationSettings) : ℝ :=
  jsMod elapsed (durationOf s) / durationOf s * (2 * Real.pi)

/-- Settings with `duration = 0.05` (below the `0.1` clamp) and
`sway = 1`: the record on which unclamped cycle formulas fail. -/
def sCex : AnimationSettings :=
  { duration := 0.05
    depth := 0
    sway := 1
    zoom := 0
    roll := 0
    wave := 0
    exposure := 1
    vignette := 0 }

/-! ## The phase accumulator (`Scene`'s `timeRef` and `playSignal`) -/

/-- The `Scene` component's accumulator state: `timeRef.current` and the
`playSignal` value the reset effect last ran with (the dependency-array
entry React compares against). -/
structure SceneClock where
  time : ℝ
  lastSignal : ℕ

/-- The `useEffect` on `[playSignal]` (lines 95–97): it re-runs — setting
`timeRef.current = 0` — exactly when the incoming signal differs from the
one it last ran with (edge-triggered); an unchanged signal leaves the
clock untouched. -/
def observeSignal (signal : ℕ) (c : SceneClock) : SceneClock :=
  if signal ≠ c.lastSignal then { time := 0, lastSignal := signal } else c

/-- One `useFrame` invocation: `timeRef.current += delta` (line 100). -/
def frameAdvance (delta : ℝ) (c : SceneClock) : SceneClock :=
  { c with time := c.time + delta }

/-- One render pass at the current `playSignal` followed by the frame
callback: effects run before the next frame evaluation. -/
def clockStep (signal : ℕ) (delta : ℝ) (c : SceneClock) : SceneClock :=
  frameAdvance delta (observeSignal signal c)

/-- A run of consecutive frames with the signal held fixed. -/
def runFrames (signal : ℕ) (deltas : List ℝ) (c : SceneClock) : SceneClock :=
  deltas.foldl (fun acc d => clockStep signal d acc) c

/-! ## Codec selection (`handleRecord`, lines 136–144) -/

/-- The ordered codec preference list the source walks:
vp9 webm, then vp8 webm, then plain webm. -/
def codecPreferences : List String :=
  ["video/webm;codecs=vp9", "video/webm;codecs=vp8", "video/webm"]

/-- The nested conditional choosing `mimeType` (lines 136–140), as a
function of the platform's `MediaRecorder.isTypeSupported`.  Note the
final `"video/webm"` is used without a support check. -/
def chooseMime (isTypeSupported : String → Bool) : String :=
  if isTypeSupported "video/webm;codecs=vp9" then "video/webm;codecs=vp9"
  else if isTypeSupported "video/webm;codecs=vp8" then "video/webm;codecs=vp8"
  else "video/webm"

/-- The error taxonomy the spec assigns to codec selection. -/
inductive CodecError where
  | unsupportedCodec
  deriving DecidableEq

/-- The outcome of the source's codec-selection step, wrapped as a
fallible computation for comparison with the spec: the source always
produces a mime type and never raises. -/
def codeSelect (isTypeSupported : String → Bool) : Except CodecError String :=
  .ok (chooseMime isTypeSupported)

/-- Modelled from the spec: "Select an encoding codec from an ordered
preference list, falling back to the next if the platform does not support
it; fails with `UnsupportedCodecError` only if none are available."  Walk
`codecPreferences` for the first supported entry; error if none is. -/
def specSelect (isTypeSupported : String → Bool) : Except CodecError String :=
  match codecPreferences.find? isTypeSupported with
  | some c => .ok c
  | none => .error .unsupportedCodec

/-! ## The capture pipeline (`Animator.tsx`)

`handleRecord` (lines 129–170), `stopRecording` (lines 172–176), the
`onstop` handler (lines 156–161), the auto-stop timeout (lines 167–169)
and `handleFileChange` (lines 101–127), modelled as pure transition
functions on a component-state record.  Prepared images are identified by
their ids (`PreparedImage.id`); an encoded artifact remembers which
image's canvas the recorder's stream was captured from. -/

/-- `MediaRecorder.state`: `"inactive"` or `"recording"` (the repository
never pauses a recorder). -/
inductive RecState where
  | inactive | recording
  deriving DecidableEq

/-- The `MediaRecorder` held in `recorderRef`, together with the image
whose canvas supplied its captured stream (`canvas.captureStream(60)` at
line 134). -/
structure Recorder where
  state : RecState
  sourceImage : Option ℕ
  deriving DecidableEq

/-- The downloadable blob URL produced by `onstop`: a video assembled from
the chunks of the recorder that stopped, hence tied to the image whose
canvas that recorder captured. -/
structure Artifact where
  fromImage : Option ℕ
  deriving DecidableEq

/-- The `Animator` component's state and refs: `prepared` (by id),
`isLoading`, `isRecording`, `recorderRef`, `chunksRef` (chunk count),
`downloadUrl`, `playSignal`, the pending auto-stop timeout's delay in
milliseconds, the canvas registered by `ParallaxStudio` (by the id of the
image it renders), the store's settings, and a count of artifacts created
by `onstop`. -/
structure AnimatorState where
  prepared : Option ℕ
  isLoading : Bool
  isRecording : Bool
  recorder : Option Recorder
  chunks : ℕ
  downloadUrl : Option Artifact
  playSignal : ℕ
  pendingStopMs : Option ℝ
  canvas : Option ℕ
  settings : AnimationSettings
  artifactsProduced : ℕ

/-- The statements `handleRecord` executes after its guard, in source
order (lines 142–169): construct the recorder from the canvas stream and
store it in `recorderRef` (a `MediaRecorder` starts `inactive`), clear the
chunk buffer, clear `downloadUrl`, set `isRecording`, bump `playSignal`,
`recorder.start()`, and schedule the auto-stop timeout.  The handler
assignments at lines 150–161 install callbacks without changing state;
their effects appear in `recorderStop` below. -/
inductive CaptureEvent where
  | newRecorder (sourceImage : Option ℕ)
  | resetChunks
  | clearDownloadUrl
  | setRecording (b : Bool)
  | incPlaySignal
  | recorderStart
  | scheduleStop (delayMs : ℝ)

/-- The state effect of each statement. -/
def applyEvent (st : AnimatorState) (e : CaptureEvent) : AnimatorState :=
  match e with
  | .newRecorder src => { st with recorder := some ⟨.inactive, src⟩ }
  | .resetChunks => { st with chunks := 0 }
  | .clearDownloadUrl => { st with downloadUrl := none }
  | .setRecording b => { st with isRecording := b }
  | .incPlaySignal => { st with playSignal := st.playSignal + 1 }
  | .recorderStart =>
      { st with recorder := st.recorder.map fun r => { r with state := .recording } }
  | .scheduleStop d => { st with pendingStopMs := some d }

/-- The ordered statement list of `handleRecord`'s body after the guard,
reading the canvas and `settings.duration` from the current state. -/
def handleRecordEvents (st : AnimatorState) : List CaptureEvent :=
  [.newRecorder st.canvas, .resetChunks, .clearDownloadUrl, .setRecording true,
   .incPlaySignal, .recorderStart, .scheduleStop (st.settings.duration * 1000)]

/-- `handleRecord` (lines 129–170): `if (!canvasRef.current || isRecording)
return;` then the statements above in order. -/
def handleRecord (st : AnimatorState) : AnimatorState :=
  if st.canvas.isNone || st.isRecording then st
  else (handleRecordEvents st).foldl applyEvent st

/-- `recorderRef.current && recorderRef.current.state === "recording"`:
whether a recorder exists and is recording. -/
def recorderActive (st : AnimatorState) : Bool :=
  match st.recorder with
  | some r => r.state == .recording
  | none => false

/-- `recorder.stop()` on a recording recorder followed by its `onstop`
handler (lines 156–161): the recorder becomes inactive, the chunks are
assembled into a blob whose object URL becomes `downloadUrl`, and
`isRecording` is cleared.  On an inactive (or absent) recorder `stop()`
throws `InvalidStateError` and changes nothing. -/
def recorderStop (st : AnimatorState) : AnimatorState :=
  match st.recorder with
  | some r =>
      if r.state == .recording then
        { st with recorder := some { r with state := .inactive }
                  downloadUrl := some ⟨r.sourceImage⟩
                  isRecording := false
                  artifactsProduced := st.artifactsProduced + 1 }
      else st
  | none => st

/-- `stopRecording` (lines 172–176): stop only if a recorder exists and
its state is `"recording"`. -/
def stopRecording (st : AnimatorState) : AnimatorState :=
  if recorderActive st then recorderStop st else st

/-- The auto-stop timeout firing (lines 167–169): the scheduled callback
calls `recorder.stop()`; the timeout is no longer pending. -/
def fireTimeout (st : AnimatorState) : AnimatorState :=
  { recorderStop st with pendingStopMs := none }

/-- The synchronous prefix of `handleFileChange` (lines 101–107): a file
was chosen, so `isLoading` is set and the previous `downloadUrl` is
cleared.  Nothing touches `recorderRef`, the chunk buffer, `isRecording`
or the pending timeout. -/
def fileSelect (st : AnimatorState) : AnimatorState :=
  { st with isLoading := true, downloadUrl := none }

/-- The completion of `handleFileChange` (lines 110–123) plus the remount
it triggers: `prepareImage` resolves, `setPrepared(mapped)` replaces the
single active image, loading clears, and the re-keyed `ParallaxStudio`
registers the new image's canvas. -/
def fileLoaded (newImage : ℕ) (st : AnimatorState) : AnimatorState :=
  { st with prepared := some newImage
            isLoading := false
            canvas := some newImage }

/-- `e₁` occurs strictly before `e₂` in the statement list `tr`. -/
def eventBefore (e₁ e₂ : CaptureEvent) (tr : List CaptureEvent) : Prop :=
  ∃ i j, i < j ∧ tr.get? i = some e₁ ∧ tr.get? j = some e₂

/-- A concrete idle component state: image 0 prepared, its canvas
registered, no recorder, nothing pending. -/
def idleState : AnimatorState :=
  { prepared := some 0
    isLoading := false
    isRecording := false
    recorder := none
    chunks := 0
    downloadUrl := none
    playSignal := 0
    pendingStopMs := none
    canvas := some 0
    settings := initialSettings
    artifactsProduced := 0 }

/-! ## Helper lemmas -/

theorem durationOf_pos (s : AnimationSettings) : 0 < durationOf s :=
  lt_of_lt_of_le (by norm_num) (le_max_left _ _)

theorem normalizedOf_eq_fract (elapsed : ℝ) (s : AnimationSettings) :
    normalizedOf elapsed s = Int.fract (elapsed / durationOf s) := by
  have hd : durationOf s ≠ 0 := ne_of_gt (durationOf_pos s)
  unfold normalizedOf jsMod Int.fract
  field_simp

theorem cycleOf_shift (elapsed : ℝ) (s : AnimationSettings) (k : ℕ) :
    cycleOf (elapsed + k * durationOf s) s = cycleOf elapsed s := by
  have hd : durationOf s ≠ 0 := ne_of_gt (durationOf_pos s)
  unfold cycleOf
  rw [normalizedOf_eq_fract, normalizedOf_eq_fract]
  have h1 : (elapsed + (k : ℝ) * durationOf s) / durationOf s =
      elapsed / durationOf s + (k : ℝ) := by
    field_simp
  rw [h1, Int.fract_add_nat]

theorem frameOfCycle_cameraX (c : ℝ) (s : AnimationSettings) :
    (frameOfCycle c s).cameraX = Real.sin c * s.sway * 0.8 := rfl

theorem frameOfCycle_cameraY (c : ℝ) (s : AnimationSettings) :
    (frameOfCycle c s).cameraY = Real.cos (c * 0.8) * s.sway * 0.6 * 0.4 := rfl

theorem frameOfCycle_cameraZ (c : ℝ) (s : AnimationSettings) :
    (frameOfCycle c s).cameraZ = 3.1 + Real.sin (c * 0.5) * s.zoom * 3.2 := rfl

theorem frameOfCycle_lookTarget (c : ℝ) (s : AnimationSettings) :
    (frameOfCycle c s).lookTarget = (0, 0, 0) := rfl

theorem frameOfCycle_meshRotZ (c : ℝ) (s : AnimationSettings) :
    (frameOfCycle c s).meshRotZ = Real.sin (c * 0.5) * s.roll := rfl

theorem frameOfCycle_meshPosZ (c : ℝ) (s : AnimationSettings) :
    (frameOfCycle c s).meshPosZ = Real.sin (c * 1.4) * s.wave * 0.45 := rfl

theorem frameOfCycle_displacementScale (c : ℝ) (s : AnimationSettings) :
    (frameOfCycle c s).displacementScale = s.depth * 0.75 := rfl

theorem frameOfCycle_exposure (c : ℝ) (s : AnimationSettings) :
    (frameOfCycle c s).exposure = s.exposure := rfl

theorem frameOfCycle_lightPos (c : ℝ) (s : AnimationSettings) (i : ℕ) :
    (frameOfCycle c s).lightPos i =
      (Real.sin ((c + i * 2) * 0.35) * 4,
       Real.cos ((c + i * 2) * 0.22) * 3 + 1.5,
       Real.sin ((c + i * 2) * 0.18) * 5 + 4) := rfl

theorem durationOf_sCex : durationOf sCex = 1/10 := by
  unfold durationOf sCex
  rw [max_eq_left (by norm_num)]
  norm_num

theorem specCycleClamped_eq_cycleOf (elapsed : ℝ) (s : AnimationSettings) :
    specCycleClamped elapsed s = cycleOf elapsed s := by
  unfold specCycleClamped cycleOf normalizedOf
  ring

end Animator

namespace Animator

/-! ## Claims C8 and C9: the settings store -/

/-- **C8.** After any prior sequence of `setValue` mutations applied to any
starting record, `reset()` yields exactly the record the store is
initialized with.  The reset is a single whole-record replacement (one
zustand `set` call in the single-threaded store), so every reader sees
either the pre-reset record or the full default table — the equality below
is between entire records, which is the shallow-embedding form of "no
partially-reset record is ever observable". -/
theorem reset_restores_defaults (ops : List (SettingKey × ℝ)) (s : AnimationSettings) :
    storeReset (applyOps ops s) = initialSettings := rfl

/-- **C9.** `setValue k v` sets field `k` to `v` and leaves every other
field unchanged. -/
theorem setValue_updates_only_key (s : AnimationSettings) (k : SettingKey) (v : ℝ) :
    getValue k (setValue k v s) = v ∧
      ∀ k' : SettingKey, k' ≠ k → getValue k' (setValue k v s) = getValue k' s := by
  constructor
  · cases k <;> rfl
  · intro k' hne
    cases k <;> cases k' <;> first
      | rfl
      | exact absurd rfl hne

/-- Witness for C9 at a concrete input: setting `depth` to `1/2` on the
default table changes `depth` and preserves `sway`. -/
theorem setValue_updates_only_key_witness :
    getValue .depth (setValue .depth (1/2) initialSettings) = 1/2 ∧
      getValue .sway (setValue .depth (1/2) initialSettings) = getValue .sway initialSettings :=
  ⟨(setValue_updates_only_key initialSettings .depth (1/2)).1,
   (setValue_updates_only_key initialSettings .depth (1/2)).2 .sway (by decide)⟩

/-! ## Claim C10: the duration clamp makes the phase division safe -/

/-- **C10.** The frame callback clamps the loop duration to
`max 0.1 settings.duration` before dividing, so for every settings record
— including `duration = 0` or negative — the divisor is at least `0.1`
(in particular nonzero) and the normalized phase lies in `[0, 1)`. -/
theorem duration_clamp_safe (elapsed : ℝ) (s : AnimationSettings) (_he : 0 ≤ elapsed) :
    (0.1 : ℝ) ≤ durationOf s ∧ durationOf s ≠ 0 ∧
      0 ≤ normalizedOf elapsed s ∧ normalizedOf elapsed s < 1 := by
  refine ⟨le_max_left _ _, ne_of_gt (durationOf_pos s), ?_, ?_⟩
  · rw [normalizedOf_eq_fract]
    exact Int.fract_nonneg _
  · rw [normalizedOf_eq_fract]
    exact Int.fract_lt_one _

/-- Witness for C10 at `elapsed = 1` and a zero-duration settings record
(outside the spec's `duration > 0` domain, as the claim demands). -/
theorem duration_clamp_safe_witness :
    (0.1 : ℝ) ≤ durationOf (setValue .duration 0 initialSettings) ∧
      durationOf (setValue .duration 0 initialSettings) ≠ 0 ∧
      0 ≤ normalizedOf 1 (setValue .duration 0 initialSettings) ∧
      normalizedOf 1 (setValue .duration 0 initialSettings) < 1 :=
  duration_clamp_safe 1 (setValue .duration 0 initialSettings) (by norm_num)

/-! ## Claim C2: periodicity of the per-frame computation -/

/-- **C2 (amended).** The per-frame computation is periodic with period
`max 0.1 settings.duration` — the clamped duration the code actually
divides by: for every `elapsed ≥ 0`, settings record and natural `k`,
the transforms at `elapsed + k · max 0.1 duration` equal those at
`elapsed`.  (With the unclamped period `settings.duration` the claim
fails for `duration < 0.1`; see the counterexample.) -/
theorem computeFrame_periodic (elapsed : ℝ) (s : AnimationSettings) (k : ℕ)
    (_he : 0 ≤ elapsed) :
    computeFrame (elapsed + k * durationOf s) s = computeFrame elapsed s := by
  unfold computeFrame
  rw [cycleOf_shift]

/-- Witness for C2 at `elapsed = 1`, `k = 2`, default settings. -/
theorem computeFrame_periodic_witness :
    computeFrame (1 + ((2 : ℕ) : ℝ) * durationOf initialSettings) initialSettings =
      computeFrame 1 initialSettings :=
  computeFrame_periodic 1 initialSettings 2 (by norm_num)

/-- Counterexample to C2 as stated: with `duration = 1/20` the code's
actual period is the clamped `1/10`, so shifting `elapsed = 1/40` by
`k = 1` times `settings.duration` changes the transforms — the camera x
coordinate moves from `sin(π/2) · 0.8 = 0.8` to `sin(3π/2) · 0.8 = -0.8`. -/
theorem computeFrame_periodic_cex :
    computeFrame (1/40 + 1 * sCex.duration) sCex ≠ computeFrame (1/40) sCex := by
  intro h
  have hx := congrArg FrameTransforms.cameraX h
  have hdur : sCex.duration = 1/20 := by
    unfold sCex
    norm_num
  have hn1 : normalizedOf (1/40) sCex = 1/4 := by
    rw [normalizedOf_eq_fract, durationOf_sCex]
    rw [show ((1 : ℝ)/40) / (1/10) = 1/4 by norm_num]
    rw [Int.fract_eq_self.2 (by norm_num)]
  have hn2 : normalizedOf (1/40 + 1 * sCex.duration) sCex = 3/4 := by
    rw [normalizedOf_eq_fract, durationOf_sCex, hdur]
    rw [show ((1 : ℝ)/40 + 1 * (1/20)) / (1/10) = 3/4 by norm_num]
    rw [Int.fract_eq_self.2 (by norm_num)]
  have hc1 : cycleOf (1/40) sCex = Real.pi / 2 := by
    unfold cycleOf
    rw [hn1]; ring
  have hc2 : cycleOf (1/40 + 1 * sCex.duration) sCex = Real.pi / 2 + Real.pi := by
    unfold cycleOf
    rw [hn2]; ring
  rw [computeFrame, computeFrame, frameOfCycle_cameraX, frameOfCycle_cameraX, hc1, hc2,
    Real.sin_add_pi, Real.sin_pi_div_two] at hx
  norm_num [sCex] at hx

/-! ## Claim C1: the per-frame transform formulas -/

/-- **C1 (amended).** For every `elapsed ≥ 0` and every settings record,
with `cycle = ((elapsed mod duration') / duration') · 2π` for the *clamped*
duration `duration' = max 0.1 settings.duration` (the spec's unclamped
`settings.duration` fails for records with `duration < 0.1`; see the
counterexample), the per-frame computation sets the camera position to
`(0.8·sin(cycle)·sway, 0.4·(cos(0.8·cycle)·sway·0.6),
3.1 + 3.2·sin(0.5·cycle)·zoom)` looking at the origin, the mesh
z-rotation to `sin(0.5·cycle)·roll`, the mesh z-position to
`0.45·sin(1.4·cycle)·wave`, the displacement scale to `0.75·depth`, the
tone-mapping exposure to `settings.exposure`, and light `i`'s position to
`(4·sin(0.35·t), 3·cos(0.22·t)+1.5, 5·sin(0.18·t)+4)` with
`t = cycle + 2·i`. -/
theorem frame_formulas (elapsed : ℝ) (s : AnimationSettings) (_he : 0 ≤ elapsed) :
    (computeFrame elapsed s).cameraX =
        0.8 * Real.sin (specCycleClamped elapsed s) * s.sway ∧
      (computeFrame elapsed s).cameraY =
        0.4 * (Real.cos (0.8 * specCycleClamped elapsed s) * s.sway * 0.6) ∧
      (computeFrame elapsed s).cameraZ =
        3.1 + 3.2 * Real.sin (0.5 * specCycleClamped elapsed s) * s.zoom ∧
      (computeFrame elapsed s).lookTarget = (0, 0, 0) ∧
      (computeFrame elapsed s).meshRotZ =
        Real.sin (0.5 * specCycleClamped elapsed s) * s.roll ∧
      (computeFrame elapsed s).meshPosZ =
        0.45 * Real.sin (1.4 * specCycleClamped elapsed s) * s.wave ∧
      (computeFrame elapsed s).displacementScale = 0.75 * s.depth ∧
      (computeFrame elapsed s).exposure = s.exposure ∧
      ∀ i : ℕ, (computeFrame elapsed s).lightPos i =
        (4 * Real.sin (0.35 * (specCycleClamped elapsed s + 2 * i)),
         3 * Real.cos (0.22 * (specCycleClamped elapsed s + 2 * i)) + 1.5,
         5 * Real.sin (0.18 * (specCycleClamped elapsed s + 2 * i)) + 4) := by
  rw [specCycleClamped_eq_cycleOf]
  unfold computeFrame
  refine ⟨?_, ?_, ?_, frameOfCycle_lookTarget _ _, ?_, ?_, ?_, frameOfCycle_exposure _ _, ?_⟩
  · rw [frameOfCycle_cameraX]; ring
  · rw [frameOfCycle_cameraY]
    rw [mul_comm (cycleOf elapsed s) 0.8]; ring
  · rw [frameOfCycle_cameraZ]
    rw [mul_comm (cycleOf elapsed s) 0.5]; ring
  · rw [frameOfCycle_meshRotZ]
    rw [mul_comm (cycleOf elapsed s) 0.5]
  · rw [frameOfCycle_meshPosZ]
    rw [mul_comm (cycleOf elapsed s) 1.4]; ring
  · rw [frameOfCycle_displacementScale]; ring
  · intro i
    rw [frameOfCycle_lightPos]
    refine Prod.ext ?_ (Prod.ext ?_ ?_) <;> simp only [] <;> ring_nf

/-- Witness for C1 at `elapsed = 0`, default settings: the displacement
scale conjunct. -/
theorem frame_formulas_witness :
    (computeFrame 0 initialSettings).displacementScale = 0.75 * initialSettings.depth :=
  (frame_formulas 0 initialSettings (by norm_num)).2.2.2.2.2.2.1

/-- Counterexample to C1 as stated: with `duration = 1/20` (< 0.1) and
`sway = 1`, at `elapsed = 1/80` the claim's unclamped cycle is `π/2`, so
it predicts camera x `0.8·sin(π/2)·1 = 0.8`; the code's clamped cycle is
`π/4`, giving `0.8·sin(π/4) = 0.4·√2 < 0.8`. -/
theorem frame_formulas_cex :
    (computeFrame (1/80) sCex).cameraX ≠
      0.8 * Real.sin (specCycle (1/80) sCex) * sCex.sway := by
  have hdur : sCex.duration = 1/20 := by
    unfold sCex
    norm_num
  have hn : normalizedOf (1/80) sCex = 1/8 := by
    rw [normalizedOf_eq_fract, durationOf_sCex]
    rw [show ((1 : ℝ)/80) / (1/10) = 1/8 by norm_num]
    rw [Int.fract_eq_self.2 (by norm_num)]
  have hc : cycleOf (1/80) sCex = Real.pi / 4 := by
    unfold cycleOf
    rw [hn]; ring
  have hfloor : ⌊((1 : ℝ)/80) / (1/20)⌋ = 0 := by
    rw [show ((1 : ℝ)/80) / (1/20) = 1/4 by norm_num]
    rw [Int.floor_eq_zero_iff]
    constructor <;> norm_num
  have hspec : specCycle (1/80) sCex = Real.pi / 2 := by
    unfold specCycle jsMod
    rw [hdur, hfloor]
    push_cast
    ring
  rw [computeFrame, frameOfCycle_cameraX, hc, hspec, Real.sin_pi_div_four,
    Real.sin_pi_div_two]
  have hsway : sCex.sway = 1 := rfl
  rw [hsway]
  have h2 : Real.sqrt 2 < 2 := by
    rw [Real.sqrt_lt' (by norm_num)]
    norm_num
  intro h
  nlinarith [h2]

end Animator

namespace Animator

/-! ## Claim C3: codec selection -/

/-- Counterexample to C3 as stated: on a platform supporting no codec at
all, the preference-list walk finds nothing — the spec then demands an
`UnsupportedCodecError` — yet the source still selects `"video/webm"`
(the final entry is used without a support check) and proceeds to
construct the recorder, so selection does not fail exactly when no codec
is available. -/
theorem codec_selection_cex :
    codecPreferences.find? (fun _ => false) = none ∧
      codeSelect (fun _ => false) = Except.ok "video/webm" ∧
      codeSelect (fun _ => false) ≠ Except.error CodecError.unsupportedCodec ∧
      specSelect (fun _ => false) = Except.error CodecError.unsupportedCodec :=
  ⟨rfl, rfl, fun h => Except.noConfusion h, rfl⟩

/-- **C3 (amended).** `startCapture` selects the codec by walking the
ordered preference list vp9 → vp8 → plain webm and taking the first
supported entry; the final entry `"video/webm"` is used unconditionally
when neither vp9 nor vp8 is supported (no support check, so also when it
too is unsupported).  Selection therefore always succeeds — it equals the
list walk with `"video/webm"` as unconditional default — and
`UnsupportedCodecError` is never raised. -/
theorem codec_selection (isTypeSupported : String → Bool) :
    codeSelect isTypeSupported =
      Except.ok ((codecPreferences.find? isTypeSupported).getD "video/webm") := by
  unfold codeSelect chooseMime codecPreferences
  cases h9 : isTypeSupported "video/webm;codecs=vp9" <;>
    cases h8 : isTypeSupported "video/webm;codecs=vp8" <;>
    cases hw : isTypeSupported "video/webm" <;>
    simp [List.find?, h9, h8, hw]

/-! ## Claim C4: the capture state machine -/

/-- Running `handleRecord` past its guard: the composite state update of
its statement list. -/
theorem handleRecord_run (st : AnimatorState) (hc : st.canvas.isNone = false)
    (hr : st.isRecording = false) :
    handleRecord st =
      { st with recorder := some ⟨.recording, st.canvas⟩
                chunks := 0
                downloadUrl := none
                isRecording := true
                playSignal := st.playSignal + 1
                pendingStopMs := some (st.settings.duration * 1000) } := by
  unfold handleRecord
  rw [hc, hr]
  rfl

/-- **C4.** The capture state machine is `Idle → Recording → Idle`:
`handleRecord` while recording is a no-op; `stopRecording` with no active
recorder is a no-op; and from an idle state with a canvas, two
`handleRecord` calls in immediate succession equal one (the second hits
the `isRecording` guard), so the eventual stop produces exactly one
artifact and returns to idle. -/
theorem capture_state_machine (st : AnimatorState) :
    (st.isRecording = true → handleRecord st = st) ∧
      (recorderActive st = false → stopRecording st = st) ∧
      (st.canvas.isNone = false → st.isRecording = false →
        handleRecord (handleRecord st) = handleRecord st ∧
          (stopRecording (handleRecord (handleRecord st))).artifactsProduced =
            st.artifactsProduced + 1 ∧
          (stopRecording (handleRecord (handleRecord st))).isRecording = false) := by
  refine ⟨?_, ?_, ?_⟩
  · intro h
    unfold handleRecord
    rw [h]
    simp
  · intro h
    unfold stopRecording
    rw [h]
    simp
  · intro hc hr
    have h1 := handleRecord_run st hc hr
    have h2 : handleRecord (handleRecord st) = handleRecord st := by
      rw [h1]
      unfold handleRecord
      simp
    refine ⟨h2, ?_, ?_⟩ <;>
      rw [h2, h1] <;>
      simp [stopRecording, recorderActive, recorderStop]

/-- Witness for C4 at the concrete idle state: stop from idle is a no-op,
a second immediate `handleRecord` is a no-op, and stopping then yields
exactly one artifact. -/
theorem capture_state_machine_witness :
    stopRecording idleState = idleState ∧
      handleRecord (handleRecord idleState) = handleRecord idleState ∧
      (stopRecording (handleRecord (handleRecord idleState))).artifactsProduced =
        idleState.artifactsProduced + 1 :=
  ⟨(capture_state_machine idleState).2.1 rfl,
   ((capture_state_machine idleState).2.2 rfl rfl).1,
   ((capture_state_machine idleState).2.2 rfl rfl).2.1⟩

/-! ## Claim C5: restart-before-start and the auto-stop timeout -/

/-- **C5.** Starting a capture from an idle state with a canvas: in
`handleRecord`'s statement list the `playSignal` bump (the phase-restart
signal) strictly precedes `recorder.start()`; the scheduled auto-stop
delay is exactly `settings.duration * 1000` milliseconds, i.e.
`settings.duration` seconds of wall-clock time; and when that timeout
fires with no earlier stop, exactly one downloadable artifact appears
(`downloadUrl` set, one more artifact produced, recording over) without
any further calls. -/
theorem capture_autostop (st : AnimatorState) (hc : st.canvas.isNone = false)
    (hr : st.isRecording = false) :
    eventBefore .incPlaySignal .recorderStart (handleRecordEvents st) ∧
      (handleRecord st).pendingStopMs = some (st.settings.duration * 1000) ∧
      (handleRecord st).playSignal = st.playSignal + 1 ∧
      (fireTimeout (handleRecord st)).artifactsProduced = st.artifactsProduced + 1 ∧
      (fireTimeout (handleRecord st)).downloadUrl = some ⟨st.canvas⟩ ∧
      (fireTimeout (handleRecord st)).isRecording = false := by
  have h1 := handleRecord_run st hc hr
  refine ⟨⟨4, 5, by norm_num, rfl, rfl⟩, ?_, ?_, ?_, ?_, ?_⟩ <;>
    rw [h1] <;>
    simp [fireTimeout, recorderStop]

/-- Witness for C5 at the concrete idle state. -/
theorem capture_autostop_witness :
    eventBefore .incPlaySignal .recorderStart (handleRecordEvents idleState) ∧
      (handleRecord idleState).pendingStopMs =
        some (idleState.settings.duration * 1000) ∧
      (fireTimeout (handleRecord idleState)).artifactsProduced =
        idleState.artifactsProduced + 1 :=
  ⟨(capture_autostop idleState rfl rfl).1,
   (capture_autostop idleState rfl rfl).2.1,
   (capture_autostop idleState rfl rfl).2.2.2.1⟩

/-! ## Claim C6: replacing the image during a capture -/

/-- Counterexample to C6 as stated: start a capture on image 0, upload
image 1 while recording (this clears the old `downloadUrl` and replaces
the prepared image), then let the auto-stop timeout fire.  The in-flight
capture tied to image 0 is *not* invalidated: it completes and leaves a
surviving downloadable artifact — one assembled from the old capture's
chunks — even though image 1 is now active. -/
theorem replace_image_cex :
    (fireTimeout (fileLoaded 1 (fileSelect (handleRecord idleState)))).downloadUrl =
        some ⟨some 0⟩ ∧
      (fireTimeout (fileLoaded 1 (fileSelect (handleRecord idleState)))).prepared =
        some 1 :=
  ⟨rfl, rfl⟩

/-- **C6 (amended).** The component keeps a single active prepared image
(`setPrepared` replaces it, so after upload exactly the new image is
active), and uploading while a capture is in progress clears the previous
artifact reference — but it does **not** invalidate the in-flight capture:
nothing stops or discards the running recorder, so when the capture stops
it still yields a surviving downloadable artifact, tied to the canvas of
the previously active image. -/
theorem replace_image_keeps_capture (st : AnimatorState) (newImage : ℕ)
    (hc : st.canvas.isNone = false) (hr : st.isRecording = false) :
    (fileSelect (handleRecord st)).downloadUrl = none ∧
      (fileLoaded newImage (fileSelect (handleRecord st))).prepared = some newImage ∧
      (fileLoaded newImage (fileSelect (handleRecord st))).isRecording = true ∧
      (fireTimeout (fileLoaded newImage (fileSelect (handleRecord st)))).downloadUrl =
        some ⟨st.canvas⟩ ∧
      (fireTimeout (fileLoaded newImage (fileSelect (handleRecord st)))).artifactsProduced =
        st.artifactsProduced + 1 := by
  have h1 := handleRecord_run st hc hr
  refine ⟨?_, ?_, ?_, ?_, ?_⟩ <;>
    rw [h1] <;>
    simp [fileSelect, fileLoaded, fireTimeout, recorderStop]

/-- Witness for C6 (amended) at the concrete idle state with new image 1. -/
theorem replace_image_keeps_capture_witness :
    (fileSelect (handleRecord idleState)).downloadUrl = none ∧
      (fileLoaded 1 (fileSelect (handleRecord idleState))).prepared = some 1 ∧
      (fireTimeout (fileLoaded 1 (fileSelect (handleRecord idleState)))).artifactsProduced =
        idleState.artifactsProduced + 1 :=
  ⟨(replace_image_keeps_capture idleState 1 rfl rfl).1,
   (replace_image_keeps_capture idleState 1 rfl rfl).2.1,
   (replace_image_keeps_capture idleState 1 rfl rfl).2.2.2.2⟩

/-! ## Claim C7: the edge-triggered phase reset -/

/-- Frames with an unchanged signal only accumulate their deltas. -/
theorem runFrames_same (signal : ℕ) (deltas : List ℝ) (c : SceneClock)
    (h : c.lastSignal = signal) :
    (runFrames signal deltas c).time = c.time + deltas.sum := by
  induction deltas generalizing c with
  | nil => simp [runFrames]
  | cons d rest ih =>
      have hobs : observeSignal signal c = c := by
        unfold observeSignal
        simp [h]
      have h2 : (clockStep signal d c).lastSignal = signal := by
        unfold clockStep frameAdvance
        rw [hobs]
        exact h
      have h3 : (clockStep signal d c).time = c.time + d := by
        unfold clockStep frameAdvance
        rw [hobs]
      show (runFrames signal rest (clockStep signal d c)).time = c.time + (d :: rest).sum
      rw [ih _ h2, h3, List.sum_cons]
      ring

/-- **C7.** The phase accumulator is edge-triggered on the restart signal:
when the incoming signal differs from the one the effect last ran with,
the accumulator is `0` before the next frame evaluation (so that frame
ends at exactly its own delta, independent of all previously accumulated
time); when the signal is unchanged the effect does not re-run — the clock
is untouched, each frame adds exactly its delta (monotonically for
nonnegative deltas), and over any run of frames the accumulator grows by
precisely the sum of the deltas, with no reset. -/
theorem phase_reset_edge_triggered (c : SceneClock) (signal : ℕ) (delta : ℝ) :
    (signal ≠ c.lastSignal →
        (observeSignal signal c).time = 0 ∧ (clockStep signal delta c).time = delta) ∧
      (signal = c.lastSignal →
        observeSignal signal c = c ∧
          (clockStep signal delta c).time = c.time + delta ∧
          (0 ≤ delta → c.time ≤ (clockStep signal delta c).time) ∧
          ∀ deltas : List ℝ, (runFrames signal deltas c).time = c.time + deltas.sum) := by
  constructor
  · intro hne
    constructor
    · simp [observeSignal, hne]
    · simp [clockStep, observeSignal, frameAdvance, hne]
  · intro heq
    have hobs : observeSignal signal c = c := by
      unfold observeSignal
      simp [heq]
    refine ⟨hobs, ?_, ?_, ?_⟩
    · unfold clockStep frameAdvance
      rw [hobs]
    · intro hd
      unfold clockStep frameAdvance
      rw [hobs]
      simp
      linarith
    · intro deltas
      exact runFrames_same signal deltas c heq.symm

/-- Witness for C7: a changed signal (1 vs 0) zeroes the accumulated `5`
and the next frame ends at its own delta `1/2`; an unchanged signal (0)
accumulates to `5 + 1/2`. -/
theorem phase_reset_edge_triggered_witness :
    (observeSignal 1 ⟨5, 0⟩).time = 0 ∧
      (clockStep 1 (1/2) ⟨5, 0⟩).time = 1/2 ∧
      (clockStep 0 (1/2) ⟨5, 0⟩).time = (5 : ℝ) + 1/2 :=
  ⟨((phase_reset_edge_triggered ⟨5, 0⟩ 1 (1/2)).1 (by decide)).1,
   ((phase_reset_edge_triggered ⟨5, 0⟩ 1 (1/2)).1 (by decide)).2,
   ((phase_reset_edge_triggered ⟨5, 0⟩ 0 (1/2)).2 rfl).2.1⟩

end Animator
